import Mathlib

/-!
Verification of the qr-creator repository against its specification.

The repository snapshot contains the Next.js frontend (frontend/app/page.tsx)
together with configuration files; the FastAPI backend (module classifier,
shape library, color resolver, raster and vector renderers, style validator)
is referenced by the README and the spec but its source directory is not part
of the snapshot.  Frontend behaviour is embedded directly from page.tsx;
backend components are modelled from the spec, each such definition carrying a
doc comment that says so.
-/

/-- Output format of the generated image, from the frontend type Format
("png" | "svg") in page.tsx. -/
inductive Format
  | png
  | svg
deriving DecidableEq, Repr

/-- Error-correction level, from the frontend type Level ("L" | "M" | "Q" | "H"). -/
inductive Level
  | L
  | M
  | Q
  | H
deriving DecidableEq, Repr

/-- Body style tag, from the frontend type Style
("square" | "dots" | "rounded" | "gapped" | "bars-vertical" | "bars-horizontal"). -/
inductive Style
  | square
  | dots
  | rounded
  | gapped
  | barsVertical
  | barsHorizontal
deriving DecidableEq, Repr

/-- Eye (finder locator) style tag, from the frontend type EyeStyle
("auto" | "square" | "rounded" | "dots" | "gapped" | "bars-vertical" | "bars-horizontal"). -/
inductive EyeStyle
  | auto
  | square
  | rounded
  | dots
  | gapped
  | barsVertical
  | barsHorizontal
deriving DecidableEq, Repr

/-- Fill mode, from the frontend type FillMode ("solid" | "gradient"). -/
inductive FillMode
  | solid
  | gradient
deriving DecidableEq, Repr

/-- The React component state of Page in frontend/app/page.tsx: one field per
useState hook, in source order. -/
structure PageState where
  data : String
  dataError : Bool
  format : Format
  level : Level
  boxSize : Int
  border : Int
  fillColor : String
  backColor : String
  style : Style
  eyeStyle : EyeStyle
  eyeColor : String
  fillMode : FillMode
  loading : Bool
  error : Option String
  previewUrl : Option String
  gradientTo : String
deriving Repr

/-- isSvg from page.tsx: format === "svg". -/
def isSvg (s : PageState) : Bool :=
  decide (s.format = Format.svg)

/-- effectiveStyle from page.tsx: isSvg ? "square" : style. -/
def effectiveStyle (s : PageState) : Style :=
  if isSvg s then Style.square else s.style

/-- The JSON body the frontend posts to /api/qr, as built by the useMemo
payload in page.tsx.  Keys that the code conditionally omits from the object
(eye_style, eye_color, fill_color_to) are Option-valued, none meaning the key
is absent. -/
structure Payload where
  data : String
  format : Format
  error_correction : Level
  box_size : Int
  border : Int
  fill_color : String
  back_color : String
  style : Style
  fill_mode : FillMode
  eye_style : Option EyeStyle
  eye_color : Option String
  fill_color_to : Option String
deriving Repr

/-- The payload builder from page.tsx: the base object always carries data,
format, error_correction, box_size, border, fill_color, back_color
(apiBackColor is backColor), style := effectiveStyle and
fill_mode := isSvg ? "solid" : fillMode; only when not SVG it adds eye_style,
eye_color and, in gradient mode, fill_color_to. -/
def payload (s : PageState) : Payload :=
  { data := s.data
    format := s.format
    error_correction := s.level
    box_size := s.boxSize
    border := s.border
    fill_color := s.fillColor
    back_color := s.backColor
    style := effectiveStyle s
    fill_mode := if isSvg s then FillMode.solid else s.fillMode
    eye_style := if isSvg s then none else some s.eyeStyle
    eye_color := if isSvg s then none else some s.eyeColor
    fill_color_to :=
      if isSvg s then none
      else if s.fillMode = FillMode.gradient then some s.gradientTo else none }

/-- Outcome of the fetch to /api/qr inside generateQr: a successful response
whose blob yields an object URL, a non-ok HTTP response with optional detail
from the JSON body, or a thrown exception with its message. -/
inductive FetchOutcome
  | ok (blobUrl : String)
  | httpError (status : Nat) (detail : Option String)
  | threw (msg : String)
deriving DecidableEq, Repr

/-- The trim() of JavaScript strings as used by generateQr on data, modelled
structurally over the character list: strip leading and trailing whitespace. -/
def trimStr (s : String) : String :=
  String.mk (((s.data.dropWhile Char.isWhitespace).reverse.dropWhile
    Char.isWhitespace).reverse)

/-- The validation message set by generateQr when data trims to empty. -/
def emptyDataMsg : String := "Introduce un texto o URL antes de generar el QR."

/-- generateQr from page.tsx as a state transition.  The second component is
the request body sent to /api/qr, none when no HTTP request was issued.
If data.trim() is empty it sets the error message and dataError and returns.
Otherwise it clears error and dataError, sets loading, issues the request with
the payload, and: on ok stores the object URL in previewUrl; on a non-ok
response throws Error(body.detail ?? "Error HTTP status") which the catch
stores in error; on a thrown exception stores its message in error; finally
clears loading. -/
def generateQr (s : PageState) (outcome : FetchOutcome) : PageState × Option Payload :=
  if trimStr s.data = "" then
    ({ s with error := some emptyDataMsg, dataError := true }, none)
  else
    let s1 := { s with error := none, dataError := false, loading := true }
    match outcome with
    | FetchOutcome.ok url =>
        ({ s1 with previewUrl := some url, loading := false }, some (payload s))
    | FetchOutcome.httpError status detail =>
        ({ s1 with error := some (detail.getD ("Error HTTP " ++ toString status)),
                   loading := false }, some (payload s))
    | FetchOutcome.threw msg =>
        ({ s1 with error := some msg, loading := false }, some (payload s))

/-- The initial component state of Page in page.tsx (the useState defaults). -/
def initialState : PageState :=
  { data := ""
    dataError := false
    format := Format.png
    level := Level.M
    boxSize := 10
    border := 4
    fillColor := "#7c3aed"
    backColor := "#0b0f1a"
    style := Style.gapped
    eyeStyle := EyeStyle.square
    eyeColor := "#38bdf8"
    fillMode := FillMode.solid
    loading := false
    error := none
    previewUrl := none
    gradientTo := "#f97316" }

/-- C1: for every state with format svg, the payload built by the frontend has
style square and fill_mode solid, carries no eye_style, eye_color or
fill_color_to key, and — whenever data trims non-empty — the request is still
issued with exactly this payload (downgraded, never rejected on account of
style, eye_style, fill_mode or eye_color). -/
theorem svg_payload_downgrade (s : PageState) (o : FetchOutcome)
    (h : s.format = Format.svg) :
    (payload s).style = Style.square
    ∧ (payload s).fill_mode = FillMode.solid
    ∧ (payload s).eye_style = none
    ∧ (payload s).eye_color = none
    ∧ (payload s).fill_color_to = none
    ∧ (trimStr s.data ≠ "" → (generateQr s o).2 = some (payload s)) := by
  have hsvg : isSvg s = true := by simp [isSvg, h]
  refine ⟨?_, ?_, ?_, ?_, ?_, ?_⟩
  · simp [payload, effectiveStyle, hsvg]
  · simp [payload, hsvg]
  · simp [payload, hsvg]
  · simp [payload, hsvg]
  · simp [payload, hsvg]
  · intro hne
    unfold generateQr
    rw [if_neg hne]
    cases o <;> rfl

/-- Concrete instantiation of svg_payload_downgrade: the default state with
format switched to svg and data "hola". -/
theorem svg_payload_downgrade_witness :
    ({ initialState with format := Format.svg, data := "hola" } : PageState).format = Format.svg
    ∧ ((payload { initialState with format := Format.svg, data := "hola" }).style = Style.square
      ∧ (payload { initialState with format := Format.svg, data := "hola" }).fill_mode = FillMode.solid
      ∧ (payload { initialState with format := Format.svg, data := "hola" }).eye_style = none
      ∧ (payload { initialState with format := Format.svg, data := "hola" }).eye_color = none
      ∧ (payload { initialState with format := Format.svg, data := "hola" }).fill_color_to = none
      ∧ (trimStr ({ initialState with format := Format.svg, data := "hola" } : PageState).data ≠ ""
          → (generateQr { initialState with format := Format.svg, data := "hola" }
              (FetchOutcome.ok "blob:demo")).2
            = some (payload { initialState with format := Format.svg, data := "hola" }))) :=
  ⟨rfl, svg_payload_downgrade { initialState with format := Format.svg, data := "hola" }
    (FetchOutcome.ok "blob:demo") rfl⟩

/-- C2: when data trims to the empty string, generateQr sets the error
message, marks the data field invalid, issues no HTTP request, and leaves the
preview unchanged. -/
theorem empty_data_rejected (s : PageState) (o : FetchOutcome)
    (h : trimStr s.data = "") :
    (generateQr s o).1.error = some emptyDataMsg
    ∧ (generateQr s o).1.dataError = true
    ∧ (generateQr s o).2 = none
    ∧ (generateQr s o).1.previewUrl = s.previewUrl := by
  unfold generateQr
  rw [if_pos h]
  exact ⟨rfl, rfl, rfl, rfl⟩

/-- Concrete instantiation of empty_data_rejected at the initial state (data
is the empty string). -/
theorem empty_data_rejected_witness :
    (generateQr initialState (FetchOutcome.ok "blob:demo")).1.error = some emptyDataMsg
    ∧ (generateQr initialState (FetchOutcome.ok "blob:demo")).1.dataError = true
    ∧ (generateQr initialState (FetchOutcome.ok "blob:demo")).2 = none
    ∧ (generateQr initialState (FetchOutcome.ok "blob:demo")).1.previewUrl
      = initialState.previewUrl :=
  empty_data_rejected initialState (FetchOutcome.ok "blob:demo") (by decide)

/-- C9: previewUrl is assigned only in the success branch of generateQr: on a
validation failure (empty trim) or on any outcome other than an ok response,
previewUrl keeps its prior value. -/
theorem failure_preserves_preview (s : PageState) (o : FetchOutcome)
    (h : trimStr s.data = "" ∨ ∀ url, o ≠ FetchOutcome.ok url) :
    (generateQr s o).1.previewUrl = s.previewUrl := by
  unfold generateQr
  by_cases he : trimStr s.data = ""
  · rw [if_pos he]
  · rw [if_neg he]
    rcases h with h | h
    · exact absurd h he
    · cases o with
      | ok url => exact absurd rfl (h url)
      | httpError status detail => rfl
      | threw msg => rfl

/-- Concrete instantiation of failure_preserves_preview: non-empty data, an
HTTP 500 response. -/
theorem failure_preserves_preview_witness :
    (generateQr { initialState with data := "hola" }
      (FetchOutcome.httpError 500 none)).1.previewUrl
    = ({ initialState with data := "hola" } : PageState).previewUrl :=
  failure_preserves_preview { initialState with data := "hola" }
    (FetchOutcome.httpError 500 none)
    (Or.inr (fun url hc => FetchOutcome.noConfusion hc))

/-- C10: the request body carries the untrimmed user input: trim is used only
for the emptiness guard, so for any state whose data trims non-empty the
request is issued and its data field equals the original string, surrounding
whitespace included. -/
theorem payload_data_untrimmed (s : PageState) (o : FetchOutcome)
    (h : trimStr s.data ≠ "") :
    (payload s).data = s.data
    ∧ (generateQr s o).2 = some (payload s) := by
  refine ⟨rfl, ?_⟩
  unfold generateQr
  rw [if_neg h]
  cases o <;> rfl

/-- Concrete instantiation of payload_data_untrimmed at data " x " (whitespace
around a letter): the sent data field is " x ", not "x". -/
theorem payload_data_untrimmed_witness :
    (payload { initialState with data := " x " }).data = " x "
    ∧ (generateQr { initialState with data := " x " }
        (FetchOutcome.ok "blob:demo")).2
      = some (payload { initialState with data := " x " }) :=
  payload_data_untrimmed { initialState with data := " x " }
    (FetchOutcome.ok "blob:demo") (by decide)

/-- Modelled from the spec: the backend Style Validator's numeric bounds check
(spec sections 4.6 and 6); the FastAPI backend directory is not part of the
repository snapshot.  box_size must be an integer in 1..32 and border an
integer in 0..10; an out-of-range value is a ValidationError and an accepted
pair is returned unchanged (no clamping). -/
def validateBounds (box_size border : Int) : Except String (Int × Int) :=
  if box_size < 1 ∨ 32 < box_size then
    Except.error "ValidationError: box_size must be between 1 and 32"
  else if border < 0 ∨ 10 < border then
    Except.error "ValidationError: border must be between 0 and 10"
  else
    Except.ok (box_size, border)

/-- Whether a validation result is an acceptance. -/
def isAccepted (r : Except String (Int × Int)) : Bool :=
  match r with
  | Except.ok _ => true
  | Except.error _ => false

/-- C3: box_size is accepted exactly when it lies in 1..32 and border exactly
when it lies in 0..10; an accepted pair is returned unchanged (never clamped);
and box_size 0, box_size 33, border -1 and border 11 are each rejected. -/
theorem bounds_exact (b d : Int) :
    (isAccepted (validateBounds b d) = true ↔ (1 ≤ b ∧ b ≤ 32 ∧ 0 ≤ d ∧ d ≤ 10))
    ∧ (∀ p, validateBounds b d = Except.ok p → p = (b, d))
    ∧ isAccepted (validateBounds 0 4) = false
    ∧ isAccepted (validateBounds 33 4) = false
    ∧ isAccepted (validateBounds 10 (-1)) = false
    ∧ isAccepted (validateBounds 10 11) = false := by
  refine ⟨?_, ?_, by decide, by decide, by decide, by decide⟩
  · unfold validateBounds isAccepted
    by_cases h1 : b < 1 ∨ 32 < b
    · rw [if_pos h1]
      simp only [Bool.false_eq_true, false_iff]
      omega
    · rw [if_neg h1]
      by_cases h2 : d < 0 ∨ 10 < d
      · rw [if_pos h2]
        simp only [Bool.false_eq_true, false_iff]
        omega
      · rw [if_neg h2]
        simp only [true_iff]
        omega
  · intro p hp
    unfold validateBounds at hp
    by_cases h1 : b < 1 ∨ 32 < b
    · rw [if_pos h1] at hp
      exact absurd hp (by simp)
    · rw [if_neg h1] at hp
      by_cases h2 : d < 0 ∨ 10 < d
      · rw [if_pos h2] at hp
        exact absurd hp (by simp)
      · rw [if_neg h2] at hp
        exact (Except.ok.injEq _ _ ▸ congrArg id hp).symm ▸ (Except.ok.inj hp).symm

/-- Concrete instantiation of bounds_exact at box_size 10, border 4 (the
frontend defaults), discharging the inner acceptance hypothesis there. -/
theorem bounds_exact_witness :
    isAccepted (validateBounds 10 4) = true
    ∧ validateBounds 10 4 = Except.ok (10, 4)
    ∧ ((10 : Int), (4 : Int)) = (10, 4) :=
  ⟨by rfl, by rfl, (bounds_exact 10 4).2.1 (10, 4) (by rfl)⟩

/-- Module classes assigned by the classifier (spec section 3): Body, EyeOuter
(the outer 7x7 ring of a finder pattern), EyeInner (its inner 3x3 core), and
Quiet (the border margin outside the matrix). -/
inductive ModuleClass
  | Body
  | EyeOuter
  | EyeInner
  | Quiet
deriving DecidableEq, Repr

/-- Modelled from the spec: the three finder anchors of an NxN matrix, the
top-left coordinates of the 7x7 finder blocks at the three corners other than
bottom-right (top-left, top-right, bottom-left); the backend classifier is not
part of the repository snapshot. -/
def finderAnchors (N : Nat) : List (Nat × Nat) :=
  [(0, 0), (0, N - 7), (N - 7, 0)]

/-- Whether cell (r, c) lies in the sz x sz block whose top-left corner is
(ar, ac). -/
def inBlock (ar ac sz r c : Nat) : Bool :=
  decide (ar ≤ r ∧ r < ar + sz ∧ ac ≤ c ∧ c < ac + sz)

/-- Whether cell (r, c) lies in one of the three 3x3 inner eye blocks, each at
offset (+2, +2) from its finder anchor. -/
def inAnyInner (N r c : Nat) : Bool :=
  (finderAnchors N).any (fun a => inBlock (a.1 + 2) (a.2 + 2) 3 r c)

/-- Whether cell (r, c) lies in one of the three 7x7 outer eye blocks. -/
def inAnyOuter (N r c : Nat) : Bool :=
  (finderAnchors N).any (fun a => inBlock a.1 a.2 7 r c)

/-- Modelled from the spec: the backend module classifier (spec section 4.1);
the backend is not part of the repository snapshot.  For each finder anchor
the 7x7 block is EyeOuter and the concentric 3x3 block at offset (+2, +2) is
EyeInner; every other matrix cell is Body; cells outside the NxN matrix (the
border margin) are Quiet. -/
def classify (N r c : Nat) : ModuleClass :=
  if r < N ∧ c < N then
    if inAnyInner N r c then ModuleClass.EyeInner
    else if inAnyOuter N r c then ModuleClass.EyeOuter
    else ModuleClass.Body
  else ModuleClass.Quiet

/-- Every inner 3x3 eye cell lies inside the corresponding 7x7 outer block. -/
theorem inner_subset_outer (N r c : Nat) :
    inAnyInner N r c = true → inAnyOuter N r c = true := by
  simp only [inAnyInner, inAnyOuter, finderAnchors, inBlock, List.any_cons,
    List.any_nil, Bool.or_eq_true, decide_eq_true_eq, Bool.or_false]
  omega

/-- C6: classification coverage for an NxN matrix (N odd, at least 21): every
matrix cell gets exactly one class and is never Quiet; EyeInner cells are
exactly those of the three 3x3 blocks at offset (+2, +2) from the anchors;
EyeOuter cells are exactly the remaining cells of the three 7x7 anchor blocks;
Body cells are exactly the cells of no anchor block; each inner block lies in
its outer block; and the three 7x7 outer blocks are pairwise disjoint. -/
theorem classification_coverage (N r c : Nat) (hodd : Odd N) (hN : 21 ≤ N)
    (hr : r < N) (hc : c < N) :
    (∃! cls : ModuleClass, classify N r c = cls)
    ∧ classify N r c ≠ ModuleClass.Quiet
    ∧ (classify N r c = ModuleClass.EyeInner ↔ inAnyInner N r c = true)
    ∧ (classify N r c = ModuleClass.EyeOuter
        ↔ (inAnyOuter N r c = true ∧ inAnyInner N r c = false))
    ∧ (classify N r c = ModuleClass.Body ↔ inAnyOuter N r c = false)
    ∧ (inAnyInner N r c = true → inAnyOuter N r c = true)
    ∧ ¬(inBlock 0 0 7 r c = true ∧ inBlock 0 (N - 7) 7 r c = true)
    ∧ ¬(inBlock 0 0 7 r c = true ∧ inBlock (N - 7) 0 7 r c = true)
    ∧ ¬(inBlock 0 (N - 7) 7 r c = true ∧ inBlock (N - 7) 0 7 r c = true) := by
  have hin : r < N ∧ c < N := ⟨hr, hc⟩
  refine ⟨⟨classify N r c, rfl, fun y hy => hy.symm⟩, ?_, ?_, ?_, ?_,
    inner_subset_outer N r c, ?_, ?_, ?_⟩
  · unfold classify
    rw [if_pos hin]
    by_cases h1 : inAnyInner N r c = true
    · simp [h1]
    · by_cases h2 : inAnyOuter N r c = true <;> simp [h1, h2]
  · unfold classify
    rw [if_pos hin]
    by_cases h1 : inAnyInner N r c = true
    · simp [h1]
    · by_cases h2 : inAnyOuter N r c = true <;> simp [h1, h2]
  · unfold classify
    rw [if_pos hin]
    by_cases h1 : inAnyInner N r c = true
    · have h2 := inner_subset_outer N r c h1
      simp [h1, h2]
    · by_cases h2 : inAnyOuter N r c = true <;>
        simp [h1, h2, Bool.not_eq_true] at *
  · unfold classify
    rw [if_pos hin]
    by_cases h1 : inAnyInner N r c = true
    · have h2 := inner_subset_outer N r c h1
      simp [h1, h2]
    · by_cases h2 : inAnyOuter N r c = true <;> simp [h1, h2]
  · simp only [inBlock, decide_eq_true_eq]
    omega
  · simp only [inBlock, decide_eq_true_eq]
    omega
  · simp only [inBlock, decide_eq_true_eq]
    omega

/-- Concrete instantiation of classification_coverage at the version-1 matrix
dimension N = 21 and the top-left cell. -/
theorem classification_coverage_witness :
    Odd 21 ∧ 21 ≤ 21 ∧ (0 : Nat) < 21
    ∧ ((∃! cls : ModuleClass, classify 21 0 0 = cls)
      ∧ classify 21 0 0 ≠ ModuleClass.Quiet
      ∧ (classify 21 0 0 = ModuleClass.EyeInner ↔ inAnyInner 21 0 0 = true)
      ∧ (classify 21 0 0 = ModuleClass.EyeOuter
          ↔ (inAnyOuter 21 0 0 = true ∧ inAnyInner 21 0 0 = false))
      ∧ (classify 21 0 0 = ModuleClass.Body ↔ inAnyOuter 21 0 0 = false)
      ∧ (inAnyInner 21 0 0 = true → inAnyOuter 21 0 0 = true)
      ∧ ¬(inBlock 0 0 7 0 0 = true ∧ inBlock 0 (21 - 7) 7 0 0 = true)
      ∧ ¬(inBlock 0 0 7 0 0 = true ∧ inBlock (21 - 7) 0 7 0 0 = true)
      ∧ ¬(inBlock 0 (21 - 7) 7 0 0 = true ∧ inBlock (21 - 7) 0 7 0 0 = true)) :=
  ⟨by decide, by decide, by decide,
    classification_coverage 21 0 0 (by decide) (by decide) (by decide) (by decide)⟩

/-- An sRGB color with rational channels, used by the spec-modelled backend
components. -/
@[ext]
structure Color where
  r : ℚ
  g : ℚ
  b : ℚ
deriving DecidableEq, Repr

/-- Channel-wise linear interpolation at parameter t. -/
def lerp (a b t : ℚ) : ℚ := a + (b - a) * t

/-- Modelled from the spec: the vertical gradient color at body row `row` of
`totalRows` body rows (spec section 4.3): channel-wise linear interpolation
between c0 (top) and c1 (bottom) at parameter row / (totalRows - 1); the
backend color resolver is not part of the repository snapshot. -/
def gradientAt (c0 c1 : Color) (row totalRows : Nat) : Color :=
  let t : ℚ := (row : ℚ) / ((totalRows : ℚ) - 1)
  { r := lerp c0.r c1.r t
    g := lerp c0.g c1.g t
    b := lerp c0.b c1.b t }

/-- The color inputs of the spec-modelled color resolver. -/
structure ColorEnv where
  fillColor : Color
  fillColorTo : Color
  backColor : Color
  eyeColor : Option Color
  fillMode : FillMode
deriving Repr

/-- The body color of a dark module: fillColor in solid mode, the row gradient
in gradient mode. -/
def bodyColor (env : ColorEnv) (row totalRows : Nat) : Color :=
  match env.fillMode with
  | FillMode.solid => env.fillColor
  | FillMode.gradient => gradientAt env.fillColor env.fillColorTo row totalRows

/-- Modelled from the spec: the backend color resolver colorFor (spec section
4.3); the backend is not part of the repository snapshot.  Quiet and light
modules get backColor; dark eye modules get eyeColor if set, else the body
color; dark body modules get the body color (solid fill or row gradient). -/
def colorFor (env : ColorEnv) (cls : ModuleClass) (dark : Bool)
    (row totalRows : Nat) : Color :=
  if dark = false then env.backColor
  else
    match cls with
    | ModuleClass.Quiet => env.backColor
    | ModuleClass.Body => bodyColor env row totalRows
    | ModuleClass.EyeOuter => (env.eyeColor).getD (bodyColor env row totalRows)
    | ModuleClass.EyeInner => (env.eyeColor).getD (bodyColor env row totalRows)

/-- C5: in gradient mode the color of a dark Body module in row `row` of
`totalRows` body rows is the channel-wise linear interpolation between
fillColor and fillColorTo at parameter row / (totalRows - 1); the topmost body
row resolves exactly to fillColor and the bottommost exactly to fillColorTo. -/
theorem gradient_endpoints (env : ColorEnv) (totalRows row : Nat)
    (hT : 2 ≤ totalRows) (hm : env.fillMode = FillMode.gradient) :
    (colorFor env ModuleClass.Body true row totalRows).r
      = env.fillColor.r + (env.fillColorTo.r - env.fillColor.r)
        * ((row : ℚ) / ((totalRows : ℚ) - 1))
    ∧ (colorFor env ModuleClass.Body true row totalRows).g
      = env.fillColor.g + (env.fillColorTo.g - env.fillColor.g)
        * ((row : ℚ) / ((totalRows : ℚ) - 1))
    ∧ (colorFor env ModuleClass.Body true row totalRows).b
      = env.fillColor.b + (env.fillColorTo.b - env.fillColor.b)
        * ((row : ℚ) / ((totalRows : ℚ) - 1))
    ∧ colorFor env ModuleClass.Body true 0 totalRows = env.fillColor
    ∧ colorFor env ModuleClass.Body true (totalRows - 1) totalRows
      = env.fillColorTo := by
  have hden : ((totalRows : ℚ) - 1) ≠ 0 := by
    have : (2 : ℚ) ≤ (totalRows : ℚ) := by exact_mod_cast hT
    nlinarith
  have hcast : (((totalRows - 1 : Nat)) : ℚ) = (totalRows : ℚ) - 1 := by
    have h1 : 1 ≤ totalRows := le_trans (by norm_num) hT
    push_cast [Nat.cast_sub h1]
    ring
  refine ⟨?_, ?_, ?_, ?_, ?_⟩
  · simp [colorFor, bodyColor, hm, gradientAt, lerp]
  · simp [colorFor, bodyColor, hm, gradientAt, lerp]
  · simp [colorFor, bodyColor, hm, gradientAt, lerp]
  · simp only [colorFor, bodyColor, hm, gradientAt, lerp]
    ext <;> simp
  · simp only [colorFor, bodyColor, hm, gradientAt, lerp]
    have ht1 : (((totalRows - 1 : Nat)) : ℚ) / ((totalRows : ℚ) - 1) = 1 := by
      rw [hcast, div_self hden]
    ext <;> simp [ht1]

/-- A sample gradient environment: purple to orange over a dark background,
matching the frontend defaults with fill_mode gradient. -/
def sampleGradientEnv : ColorEnv :=
  { fillColor := { r := 124, g := 58, b := 237 }
    fillColorTo := { r := 249, g := 115, b := 22 }
    backColor := { r := 11, g := 15, b := 26 }
    eyeColor := none
    fillMode := FillMode.gradient }

/-- Concrete instantiation of gradient_endpoints at 21 body rows, row 5. -/
theorem gradient_endpoints_witness :
    (2 ≤ 21 ∧ sampleGradientEnv.fillMode = FillMode.gradient)
    ∧ ((colorFor sampleGradientEnv ModuleClass.Body true 5 21).r
        = sampleGradientEnv.fillColor.r
          + (sampleGradientEnv.fillColorTo.r - sampleGradientEnv.fillColor.r)
            * ((5 : ℚ) / ((21 : ℚ) - 1))
      ∧ (colorFor sampleGradientEnv ModuleClass.Body true 5 21).g
        = sampleGradientEnv.fillColor.g
          + (sampleGradientEnv.fillColorTo.g - sampleGradientEnv.fillColor.g)
            * ((5 : ℚ) / ((21 : ℚ) - 1))
      ∧ (colorFor sampleGradientEnv ModuleClass.Body true 5 21).b
        = sampleGradientEnv.fillColor.b
          + (sampleGradientEnv.fillColorTo.b - sampleGradientEnv.fillColor.b)
            * ((5 : ℚ) / ((21 : ℚ) - 1))
      ∧ colorFor sampleGradientEnv ModuleClass.Body true 0 21
        = sampleGradientEnv.fillColor
      ∧ colorFor sampleGradientEnv ModuleClass.Body true (21 - 1) 21
        = sampleGradientEnv.fillColorTo) := by
  refine ⟨⟨by norm_num, rfl⟩, ?_⟩
  have h := gradient_endpoints sampleGradientEnv 21 5 (by norm_num) rfl
  simpa using h

/-- A geometric primitive's bounding box in cell-local coordinates. -/
structure BBox where
  x0 : ℚ
  y0 : ℚ
  x1 : ℚ
  y1 : ℚ
deriving DecidableEq, Repr

/-- Modelled from the spec: the backend shape library shapeFor (spec section
4.2); the backend is not part of the repository snapshot.  For each style tag
the bounding box of the primitive drawn in a size x size cell with inset ratio
`gap`: square and rounded fill the whole cell; dots is the inscribed circle of
diameter size * (1 - gap), centered; gapped is the square inset by
size * gap / 2 on each side; the bar styles span the full cell on one axis and
size * (1 - gap), centered, on the other.  The module class selects which
style tag is used but does not change the geometry, so it is an unused
argument here. -/
def shapeFor (st : Style) (cls : ModuleClass) (size gap : ℚ) : BBox :=
  match st, cls with
  | Style.square, _ => { x0 := 0, y0 := 0, x1 := size, y1 := size }
  | Style.rounded, _ => { x0 := 0, y0 := 0, x1 := size, y1 := size }
  | Style.dots, _ =>
      { x0 := size * gap / 2, y0 := size * gap / 2
        x1 := size - size * gap / 2, y1 := size - size * gap / 2 }
  | Style.gapped, _ =>
      { x0 := size * gap / 2, y0 := size * gap / 2
        x1 := size - size * gap / 2, y1 := size - size * gap / 2 }
  | Style.barsVertical, _ =>
      { x0 := size * gap / 2, y0 := 0, x1 := size - size * gap / 2, y1 := size }
  | Style.barsHorizontal, _ =>
      { x0 := 0, y0 := size * gap / 2, x1 := size, y1 := size - size * gap / 2 }

/-- C7: for every style tag, module class, nonnegative cell size and gap ratio
in [0, 1], the primitive produced by shapeFor lies entirely within the cell's
size x size bounding square: its bounding box is well-formed and contained in
[0, size] on both axes. -/
theorem shape_containment (st : Style) (cls : ModuleClass) (size gap : ℚ)
    (hs : 0 ≤ size) (hg0 : 0 ≤ gap) (hg1 : gap ≤ 1) :
    0 ≤ (shapeFor st cls size gap).x0
    ∧ (shapeFor st cls size gap).x0 ≤ (shapeFor st cls size gap).x1
    ∧ (shapeFor st cls size gap).x1 ≤ size
    ∧ 0 ≤ (shapeFor st cls size gap).y0
    ∧ (shapeFor st cls size gap).y0 ≤ (shapeFor st cls size gap).y1
    ∧ (shapeFor st cls size gap).y1 ≤ size := by
  have hsg : 0 ≤ size * gap := mul_nonneg hs hg0
  have hle : size * gap ≤ size := by nlinarith
  cases st <;> cases cls <;>
    simp only [shapeFor] <;>
    refine ⟨by linarith, by linarith, by linarith, by linarith, by linarith,
      by linarith⟩

/-- Concrete instantiation of shape_containment: dots body module, cell size
10, gap ratio 1/5. -/
theorem shape_containment_witness :
    ((0 : ℚ) ≤ 10 ∧ (0 : ℚ) ≤ 1 / 5 ∧ (1 : ℚ) / 5 ≤ 1)
    ∧ (0 ≤ (shapeFor Style.dots ModuleClass.Body 10 (1 / 5)).x0
      ∧ (shapeFor Style.dots ModuleClass.Body 10 (1 / 5)).x0
        ≤ (shapeFor Style.dots ModuleClass.Body 10 (1 / 5)).x1
      ∧ (shapeFor Style.dots ModuleClass.Body 10 (1 / 5)).x1 ≤ 10
      ∧ 0 ≤ (shapeFor Style.dots ModuleClass.Body 10 (1 / 5)).y0
      ∧ (shapeFor Style.dots ModuleClass.Body 10 (1 / 5)).y0
        ≤ (shapeFor Style.dots ModuleClass.Body 10 (1 / 5)).y1
      ∧ (shapeFor Style.dots ModuleClass.Body 10 (1 / 5)).y1 ≤ 10) :=
  ⟨⟨by norm_num, by norm_num, by norm_num⟩,
    shape_containment Style.dots ModuleClass.Body 10 (1 / 5) (by norm_num)
      (by norm_num) (by norm_num)⟩

/-- A raster pixel buffer: the color at each (x, y) pixel coordinate. -/
def PixelBuf : Type := Nat → Nat → Color

/-- The inputs of the spec-modelled raster renderer (spec section 4.4): matrix
dimension, border width in modules, module pixel size, the darkness grid, the
per-cell shape coverage predicate in cell-local pixel coordinates, the
per-cell resolved color, and the background color. -/
structure RasterInput where
  N : Nat
  border : Nat
  moduleSize : Nat
  dark : Nat → Nat → Bool
  shape : Nat → Nat → Nat → Nat → Bool
  colorAt : Nat → Nat → Color
  backColor : Color

/-- The side length in pixels of the allocated square buffer:
(N + 2 * border) * moduleSize. -/
def sideLen (inp : RasterInput) : Nat :=
  (inp.N + 2 * inp.border) * inp.moduleSize

/-- Whether the shape drawn for matrix cell (row, col) covers pixel (px, py):
the cell must be dark, the pixel must lie in the cell's moduleSize-sized pixel
block offset by border * moduleSize on both axes, and the cell's shape must
cover the corresponding cell-local pixel. -/
def cellCovers (inp : RasterInput) (row col px py : Nat) : Bool :=
  let ox := (inp.border + col) * inp.moduleSize
  let oy := (inp.border + row) * inp.moduleSize
  inp.dark row col
    && decide (ox ≤ px) && decide (px < ox + inp.moduleSize)
    && decide (oy ≤ py) && decide (py < oy + inp.moduleSize)
    && inp.shape row col (px - ox) (py - oy)

/-- Drawing one cell into the buffer: pixels covered by the cell's shape take
the cell's resolved color, every other pixel keeps its previous color. -/
def drawCell (inp : RasterInput) (row col : Nat) (buf : PixelBuf) : PixelBuf :=
  fun px py =>
    if cellCovers inp row col px py then inp.colorAt row col else buf px py

/-- All matrix cells in row-major order. -/
def cellsRowMajor (N : Nat) : List (Nat × Nat) :=
  ((List.range N).map (fun r => (List.range N).map (fun c => (r, c)))).flatten

/-- Modelled from the spec: the backend raster renderer (spec section 4.4);
the backend is not part of the repository snapshot.  Allocates a square buffer
of side (N + 2 * border) * moduleSize, fills it entirely with backColor, then
draws each matrix cell's resolved shape at its resolved color in row-major
order, offset by border * moduleSize on both axes. -/
def render (inp : RasterInput) : PixelBuf :=
  (cellsRowMajor inp.N).foldl
    (fun buf rc => drawCell inp rc.1 rc.2 buf)
    (fun _ _ => inp.backColor)

/-- Whether any matrix cell's drawn shape covers pixel (px, py). -/
def coveredAt (inp : RasterInput) (px py : Nat) : Bool :=
  (cellsRowMajor inp.N).any (fun rc => cellCovers inp rc.1 rc.2 px py)

/-- Folding draw steps over any cell list leaves every pixel covered by none
of those cells at its previous color. -/
theorem foldl_draw_untouched (inp : RasterInput) (cells : List (Nat × Nat))
    (buf : PixelBuf) (px py : Nat)
    (h : ∀ rc ∈ cells, cellCovers inp rc.1 rc.2 px py = false) :
    (cells.foldl (fun b rc => drawCell inp rc.1 rc.2 b) buf) px py
      = buf px py := by
  induction cells generalizing buf with
  | nil => rfl
  | cons hd tl ih =>
      have h1 : cellCovers inp hd.1 hd.2 px py = false :=
        h hd (List.mem_cons_self hd tl)
      have h2 : ∀ rc ∈ tl, cellCovers inp rc.1 rc.2 px py = false :=
        fun rc hm => h rc (List.mem_cons_of_mem hd hm)
      rw [List.foldl_cons, ih (drawCell inp hd.1 hd.2 buf) h2]
      simp [drawCell, h1]

/-- C8: the raster renderer returns a square buffer of side exactly
(N + 2 * border) * moduleSize, and every pixel not covered by any drawn
dark-module shape holds backColor. -/
theorem raster_background (inp : RasterInput) (px py : Nat)
    (h : coveredAt inp px py = false) :
    sideLen inp = (inp.N + 2 * inp.border) * inp.moduleSize
    ∧ render inp px py = inp.backColor := by
  refine ⟨rfl, ?_⟩
  have hall : ∀ rc ∈ cellsRowMajor inp.N,
      cellCovers inp rc.1 rc.2 px py = false := by
    intro rc hm
    by_contra hne
    have : cellCovers inp rc.1 rc.2 px py = true := by
      cases hcv : cellCovers inp rc.1 rc.2 px py
      · exact absurd hcv hne
      · rfl
    have : coveredAt inp px py = true := by
      unfold coveredAt
      exact List.any_eq_true.mpr ⟨rc, hm, this⟩
    rw [this] at h
    exact Bool.noConfusion h
  exact foldl_draw_untouched inp (cellsRowMajor inp.N) _ px py hall

/-- A concrete all-light raster input: version-1 dimension, border 4, module
size 10, no dark module, full-cell square shapes, black foreground over a
white background. -/
def sampleRaster : RasterInput :=
  { N := 21
    border := 4
    moduleSize := 10
    dark := fun _ _ => false
    shape := fun _ _ _ _ => true
    colorAt := fun _ _ => { r := 0, g := 0, b := 0 }
    backColor := { r := 255, g := 255, b := 255 } }

/-- Concrete instantiation of raster_background at pixel (0, 0) of the
all-light input: no cell covers it, so it holds the background color, and the
buffer side is (21 + 8) * 10 = 290. -/
theorem raster_background_witness :
    coveredAt sampleRaster 0 0 = false
    ∧ (sideLen sampleRaster = (21 + 2 * 4) * 10
      ∧ render sampleRaster 0 0 = sampleRaster.backColor) := by
  have hcov : coveredAt sampleRaster 0 0 = false := by
    unfold coveredAt
    apply List.any_eq_false.mpr
    intro rc hm
    simp [cellCovers, sampleRaster]
  exact ⟨hcov, raster_background sampleRaster 0 0 hcov⟩

/-- C4: rendering is deterministic: two runs of the renderer on the same
input yield identical output buffers — the renderer is a pure function of its
input with no hidden state. -/
theorem render_deterministic (inp : RasterInput) (out1 out2 : PixelBuf)
    (h1 : out1 = render inp) (h2 : out2 = render inp) : out1 = out2 :=
  h1.trans h2.symm

/-- Concrete instantiation of render_deterministic on the all-light input. -/
theorem render_deterministic_witness :
    render sampleRaster = render sampleRaster :=
  render_deterministic sampleRaster (render sampleRaster)
    (render sampleRaster) rfl rfl
